import Mathlib

/-!
Verification of the IITS MQTT threat simulator (iits.py) against its
specification.

Python constructs are shallowly embedded: wall-clock time is rational
seconds, randomness and network outcomes are oracle functions passed as
parameters, and each long-running actor loop is a structurally recursive
Lean function that records the observable behaviour of one run (the value
of the run-flag at every while-condition check, the operation counters,
publish and connection events, and log events).  Threaded stop calls are
modelled by a stop oracle: stop i = true means stop() was invoked by the
managing thread before the loop evaluated its i-th while condition.
Pacing sleeps are the only modelled passage of time, so a loop that sleeps
one second per cycle advances the clock by one per cycle.
-/

/- ================================================================
   SimulationManager.run: pre-loop scheduling timeline
   (iits.py, SimulationManager.run, lines 436-464)
   ================================================================ -/

/-- Events of SimulationManager.run before its monitoring loop, as
(event, seconds since run began) pairs.  create_devices and start_devices
only spawn daemon threads (no sleep); then the main thread executes
time.sleep(10); only after that are the two threading.Timer objects
created and started, so each timer fires its configured delay measured
from that moment, not from the moment run() began.  The delays are
duration * 0.25 for the brute-force timer and duration * 0.5 for the
DDoS timer (lines 453 and 460). -/
def SimulationManager.runPrelude (duration : ℚ) (bruteforce ddos : Bool) :
    List (String × ℚ) :=
  let tAfterSleep : ℚ := 0 + 10
  (if bruteforce then [("bruteforce_start", tAfterSleep + duration * (25 / 100))] else []) ++
    (if ddos then [("ddos_start", tAfterSleep + duration * (50 / 100))] else [])

/- ================================================================
   SimulationManager.stop (iits.py lines 485-501)
   ================================================================ -/

/-- State of one IoTDevice as seen by the manager (its run-flag). -/
structure IoTDeviceSt where
  running : Bool
  deriving DecidableEq, Repr

/-- State of one attack object held in SimulationManager.attack_threads:
a BruteForceAttack has only its run-flag, a DDoSAttack additionally
retains the list of connections accumulated by a connection flood. -/
inductive AttackSt
  | brute (running : Bool)
  | ddos (running : Bool) (clients : List Nat)
  deriving DecidableEq, Repr

/-- Observable shutdown side effects issued by stop calls. -/
inductive Effect
  | log (msg : String)
  | deviceLoopStop (device : Nat)
  | deviceDisconnect (device : Nat)
  | ddosClientDisconnect (attack : Nat) (client : Nat)
  deriving DecidableEq, Repr

/-- IoTDevice.stop (lines 143-147): clear the run-flag. -/
def IoTDevice.stopSt (_d : IoTDeviceSt) : IoTDeviceSt :=
  { running := false }

/-- Side effects of IoTDevice.stop for device number i:
client.loop_stop() and client.disconnect(). -/
def IoTDevice.stopEffects (i : Nat) : List Effect :=
  [.deviceLoopStop i, .deviceDisconnect i]

/-- BruteForceAttack.stop (lines 215-217) clears the run-flag;
DDoSAttack.stop (lines 328-339) clears the run-flag, disconnects every
retained connection (each failure swallowed) and empties the list. -/
def AttackSt.stopSt : AttackSt → AttackSt
  | .brute _ => .brute false
  | .ddos _ _ => .ddos false []

/-- Side effects of stopping attack number i. -/
def AttackSt.stopEffects (i : Nat) : AttackSt → List Effect
  | .brute _ => []
  | .ddos _ cl => cl.map (fun c => .ddosClientDisconnect i c)

/-- SimulationManager state: its own run-flag plus the owned actors. -/
structure SimulationManagerSt where
  running : Bool
  devices : List IoTDeviceSt
  attacks : List AttackSt
  deriving DecidableEq, Repr

/-- SimulationManager.stop (lines 485-501): if the manager is not running,
return at once with no side effects; otherwise stop every device, then
every attack, then clear the manager run-flag.  The returned list is the
sequence of shutdown side effects issued by this call. -/
def SimulationManager.stop (m : SimulationManagerSt) :
    SimulationManagerSt × List Effect :=
  if m.running then
    ({ running := false,
       devices := m.devices.map IoTDevice.stopSt,
       attacks := m.attacks.map AttackSt.stopSt },
      Effect.log "Stopping simulation..." ::
        ((List.range m.devices.length).flatMap IoTDevice.stopEffects ++
          m.attacks.enum.flatMap (fun p => AttackSt.stopEffects p.1 p.2) ++
          [Effect.log "Simulation stopped successfully"]))
  else (m, [])

/- ================================================================
   IoTDevice.generate_data (iits.py lines 87-111)
   ================================================================ -/

/-- The telemetry record built by IoTDevice.generate_data. -/
structure SensorReading where
  device : String
  type : String
  hardware : String
  value : ℚ
  unit : String
  timestamp : ℚ
  deriving DecidableEq, Repr

/-- CPython random.uniform(a, b) = a + (b - a) * random(), where
random() is uniform on [0, 1).  The second argument u stands for the
drawn random() value. -/
def randomUniform (a b u : ℚ) : ℚ := a + (b - a) * u

/-- Python round(x, 2): round to the nearest multiple of 1/100 (ties are
irrelevant to the range facts proved below). -/
def pythonRound2 (q : ℚ) : ℚ := ((⌊q * 100 + 1 / 2⌋ : ℤ) : ℚ) / 100

/-- Python random.randint(a, b): an integer drawn uniformly from [a, b];
the draw is modelled by reducing the oracle u modulo the size of the
range. -/
def randomRandint (a b : ℤ) (u : Nat) : ℤ := a + ((u % (b - a + 1).toNat : Nat) : ℤ)

/-- IoTDevice.generate_data (lines 87-111): value and unit depend on the
device type; u is the random() draw used by random.uniform, n the draw
used by random.randint, ts the current timestamp. -/
def IoTDevice.generate_data (id ty hw : String) (u : ℚ) (n : Nat) (ts : ℚ) :
    SensorReading :=
  if ty = "temperature" then
    { device := id, type := ty, hardware := hw,
      value := pythonRound2 (randomUniform 15 30 u), unit := "Â°C", timestamp := ts }
  else if ty = "humidity" then
    { device := id, type := ty, hardware := hw,
      value := pythonRound2 (randomUniform 30 70 u), unit := "%", timestamp := ts }
  else if ty = "luminosity" then
    { device := id, type := ty, hardware := hw,
      value := ((randomRandint 0 1000 n : ℤ) : ℚ), unit := "lux", timestamp := ts }
  else
    { device := id, type := ty, hardware := hw,
      value := ((randomRandint 0 100 n : ℤ) : ℚ), unit := "units", timestamp := ts }

/- ================================================================
   IoTDevice.start run loop (iits.py lines 126-147)
   ================================================================ -/

/-- Observable outcome of one IoTDevice.start run: the run-flag value at
each while-condition check, the number of loop bodies entered (one
publish per body), and the run-flag after the finally block, which calls
self.stop().  fuelOut records whether the observation window (fuel)
ended with the loop still running; the device loop has no duration bound
of its own, so it only exits on a cleared flag or an exception. -/
structure DeviceRun where
  checks : List Bool
  iters : Nat
  running_final : Bool
  fuelOut : Bool
  deriving DecidableEq, Repr

/-- The while self.running loop of IoTDevice.start.  stop i is true when
IoTDevice.stop was called from another thread before check i; exc i is
true when iteration i raises (publish or sleep failure), which leaves the
loop and reaches the finally block. -/
def deviceLoop (stop exc : Nat → Bool) : Nat → Nat → Bool → DeviceRun
  | 0, _i, _r =>
    { checks := [], iters := 0, running_final := false, fuelOut := true }
  | fuel + 1, i, r =>
    let r1 := if stop i then false else r
    if r1 then
      if exc i then
        { checks := [r1], iters := 1, running_final := false, fuelOut := false }
      else
        let rest := deviceLoop stop exc fuel (i + 1) r1
        { checks := r1 :: rest.checks, iters := 1 + rest.iters,
          running_final := rest.running_final, fuelOut := rest.fuelOut }
    else
      { checks := [r1], iters := 0, running_final := false, fuelOut := false }

/-- IoTDevice.start (lines 126-141): connect, then loop while the
run-flag (true from the constructor, line 60) is set; on any exception
the finally block runs self.stop().  connectOk is false when the initial
connect itself raises, in which case the loop is never entered. -/
def IoTDevice.start (connectOk : Bool) (stop exc : Nat → Bool) (fuel : Nat) :
    DeviceRun :=
  if connectOk then deviceLoop stop exc fuel 0 true
  else { checks := [], iters := 0, running_final := false, fuelOut := false }

/- ================================================================
   BruteForceAttack.start (iits.py lines 187-212)
   ================================================================ -/

/-- Observable outcome of one BruteForceAttack.start run.  checks lists
the run-flag value at each while-condition check; password_attempts is
the final counter; finalReports counts executions of the final-count log
in the finally block; running_final is the flag after the finally block;
exitElapsed and exitFlag describe the loop state at the exiting check;
excExit records an exception exit; fuelOut records exhaustion of the
observation window (a model artifact, proved unreachable with enough
fuel). -/
structure BruteRun where
  checks : List Bool
  iters : Nat
  password_attempts : Nat
  finalReports : Nat
  running_final : Bool
  exitElapsed : ℚ
  exitFlag : Bool
  excExit : Bool
  fuelOut : Bool
  deriving DecidableEq, Repr

/-- The while loop of BruteForceAttack.start: while self.running and
time.time() - start_time < duration, attempt a login, increment the
counter, sleep 1/rate seconds.  Elapsed time t advances by 1/rate per
iteration (the pacing sleep is the modelled passage of time).  stop i
models a concurrent stop() before check i; exc i models an exception in
iteration i (for example time.sleep raising), caught by the except
clause; the counter was already incremented when the sleep runs, and the
finally block then clears the flag and logs the final attempt count. -/
def bruteLoop (duration rate : ℚ) (stop exc : Nat → Bool) :
    Nat → Nat → ℚ → Bool → BruteRun
  | 0, _i, t, r =>
    { checks := [], iters := 0, password_attempts := 0, finalReports := 1,
      running_final := false, exitElapsed := t, exitFlag := r,
      excExit := false, fuelOut := true }
  | fuel + 1, i, t, r =>
    let r1 := if stop i then false else r
    if r1 = true ∧ t < duration then
      if exc i then
        { checks := [r1], iters := 1, password_attempts := 1, finalReports := 1,
          running_final := false, exitElapsed := t, exitFlag := r1,
          excExit := true, fuelOut := false }
      else
        let rest := bruteLoop duration rate stop exc fuel (i + 1) (t + 1 / rate) r1
        { checks := r1 :: rest.checks, iters := 1 + rest.iters,
          password_attempts := 1 + rest.password_attempts,
          finalReports := rest.finalReports, running_final := rest.running_final,
          exitElapsed := rest.exitElapsed, exitFlag := rest.exitFlag,
          excExit := rest.excExit, fuelOut := rest.fuelOut }
    else
      { checks := [r1], iters := 0, password_attempts := 0, finalReports := 1,
        running_final := false, exitElapsed := t, exitFlag := r1,
        excExit := false, fuelOut := false }

/-- BruteForceAttack.start (lines 187-212): sets the run-flag, resets the
counter, then runs the attempt loop from elapsed time 0. -/
def BruteForceAttack.start (rate duration : ℚ) (stop exc : Nat → Bool)
    (fuel : Nat) : BruteRun :=
  bruteLoop duration rate stop exc fuel 0 0 true

/- ================================================================
   DDoSAttack._flood_connections (iits.py lines 237-257)
   ================================================================ -/

/-- Per-cycle batch bound: range(min(10, self.rate // 10)), line 243. -/
def connBatchSize (rate : Nat) : Nat := min 10 (rate / 10)

/-- Indices of successful connection attempts within one cycle: attempt
j is made for every j below the batch size, a failed attempt (ok j
false) is swallowed by the bare except and the batch continues with
attempt j + 1. -/
def floodConnBatch (ok : Nat → Bool) (n : Nat) : List Nat :=
  (List.range n).filter ok

/-- Observable outcome of one connection-flood run: run-flag value at
each while-condition check, loop bodies entered, the (cycle, attempt)
ids of every connection appended to self.clients, the final
operations_count, the number of time.sleep(1) calls, and the flag value
observed at the exiting check. -/
structure ConnRun where
  checks : List Bool
  iters : Nat
  clients : List (Nat × Nat)
  operations_count : Nat
  sleeps : Nat
  exitFlag : Bool
  deriving DecidableEq, Repr

/-- The while loop of _flood_connections: while self.running and
time.time() - start_time < duration; each cycle attempts
connBatchSize rate connections (ok i j tells whether attempt j of cycle
i connects), appends each success and counts it, then sleeps one second.
remaining is duration minus elapsed whole seconds; each cycle consumes
one second through its sleep. -/
def floodConnLoop (rate : Nat) (ok : Nat → Nat → Bool) (stop : Nat → Bool) :
    Nat → Nat → Bool → ConnRun
  | 0, i, r =>
    let r1 := if stop i then false else r
    { checks := [r1], iters := 0, clients := [], operations_count := 0,
      sleeps := 0, exitFlag := r1 }
  | remaining + 1, i, r =>
    let r1 := if stop i then false else r
    if r1 then
      let batch := floodConnBatch (ok i) (connBatchSize rate)
      let rest := floodConnLoop rate ok stop remaining (i + 1) r1
      { checks := r1 :: rest.checks, iters := 1 + rest.iters,
        clients := batch.map (fun j => (i, j)) ++ rest.clients,
        operations_count := batch.length + rest.operations_count,
        sleeps := 1 + rest.sleeps, exitFlag := rest.exitFlag }
    else
      { checks := [r1], iters := 0, clients := [], operations_count := 0,
        sleeps := 0, exitFlag := r1 }

/-- DDoSAttack._flood_connections entered through DDoSAttack.start
(lines 311-319): the run-flag is set and the counter reset before the
loop starts at elapsed time 0. -/
def DDoSAttack.flood_connections (rate duration : Nat) (ok : Nat → Nat → Bool)
    (stop : Nat → Bool) : ConnRun :=
  floodConnLoop rate ok stop duration 0 true

/- ================================================================
   DDoSAttack._flood_publish (iits.py lines 260-308)
   ================================================================ -/

/-- string.ascii_letters. -/
def ascii_letters : List Char :=
  "abcdefghijklmnopqrstuvwxyzABCDEFGHIJKLMNOPQRSTUVWXYZ".toList

/-- random.choice over a character list, the draw u reduced modulo the
list length. -/
def randomChoice (l : List Char) (u : Nat) : Char := l.getD (u % l.length) 'A'

/-- The flood payload, line 289: 50 characters drawn from ascii_letters
(g k is the draw for character k). -/
def randomPayload (g : Nat → Nat) : String :=
  String.mk ((List.range 50).map (fun k => randomChoice ascii_letters (g k)))

/-- The ten flood topics, line 281. -/
def floodTopics : List String :=
  (List.range 10).map (fun i => "ddos/flood/topic/" ++ toString i)

/-- One publish call issued by the publish flood. -/
structure Pub where
  client : Nat
  topic : String
  payload : String
  deriving DecidableEq, Repr

/-- One full cycle of the publish loop, lines 287-291: for every pooled
client, for every flood topic, publish one fresh 50-character random
payload (g c tj supplies the character draws for the payload sent by
client c to topic index tj). -/
def floodPubCycle (clients : List Nat) (topics : List String)
    (g : Nat → Nat → Nat → Nat) : List Pub :=
  clients.flatMap (fun c =>
    (List.range topics.length).map (fun tj =>
      { client := c, topic := topics.getD tj "", payload := randomPayload (g c tj) }))

/-- Observable outcome of the publish-flood while loop: run-flag checks,
loop bodies entered, the publishes actually issued, the number of
publishes of each executed cycle, the final operations_count, the
time.sleep(1) calls, and the flag at the exiting check. -/
structure PubLoopRes where
  checks : List Bool
  iters : Nat
  publishes : List Pub
  cycleLens : List Nat
  operations_count : Nat
  sleeps : Nat
  exitFlag : Bool
  deriving DecidableEq, Repr

/-- The while loop of _flood_publish, lines 284-300.  The whole cycle
body sits in a try/except: excAt i = some k means cycle i raises after
its k-th publish; the exception is caught, logged, and the loop
continues with the next cycle (the sleep is skipped, but the cycle still
consumes wall-clock time, modelled as one tick).  excAt i = none means
cycle i completes and sleeps one second. -/
def floodPubLoop (clients : List Nat) (g : Nat → Nat → Nat → Nat → Nat)
    (excAt : Nat → Option Nat) (stop : Nat → Bool) :
    Nat → Nat → Bool → PubLoopRes
  | 0, i, r =>
    let r1 := if stop i then false else r
    { checks := [r1], iters := 0, publishes := [], cycleLens := [],
      operations_count := 0, sleeps := 0, exitFlag := r1 }
  | remaining + 1, i, r =>
    let r1 := if stop i then false else r
    if r1 then
      let full := floodPubCycle clients floodTopics (g i)
      let issued := match excAt i with
        | none => full
        | some k => full.take k
      let slept := match excAt i with
        | none => 1
        | some _ => 0
      let rest := floodPubLoop clients g excAt stop remaining (i + 1) r1
      { checks := r1 :: rest.checks, iters := 1 + rest.iters,
        publishes := issued ++ rest.publishes,
        cycleLens := issued.length :: rest.cycleLens,
        operations_count := issued.length + rest.operations_count,
        sleeps := slept + rest.sleeps, exitFlag := rest.exitFlag }
    else
      { checks := [r1], iters := 0, publishes := [], cycleLens := [],
        operations_count := 0, sleeps := 0, exitFlag := r1 }

/-- Observable outcome of one whole _flood_publish call. -/
structure PubRun where
  base_clients : List Nat
  checks : List Bool
  iters : Nat
  publishes : List Pub
  cycleLens : List Nat
  operations_count : Nat
  sleeps : Nat
  cleaned : List Nat
  fatalLog : Bool
  enteredLoop : Bool
  exitFlag : Bool
  deriving DecidableEq, Repr

/-- DDoSAttack._flood_publish (lines 260-308): attempt 5 pool
connections (ok j tells whether setup attempt j connects; a failure is
swallowed by continue); if none connected, log the fatal setup error and
return before the loop; otherwise run the publish loop for the given
duration and afterwards attempt loop_stop and disconnect on every pooled
client (cleanOk c is the outcome of that attempt; a failure is swallowed
by the bare except, so the attempt list does not depend on it). -/
def DDoSAttack.flood_publish (ok : Nat → Bool) (g : Nat → Nat → Nat → Nat → Nat)
    (excAt : Nat → Option Nat) (stop : Nat → Bool) (_cleanOk : Nat → Bool)
    (duration : Nat) : PubRun :=
  let base := (List.range 5).filter ok
  if base.isEmpty then
    { base_clients := base, checks := [], iters := 0, publishes := [],
      cycleLens := [], operations_count := 0, sleeps := 0, cleaned := [],
      fatalLog := true, enteredLoop := false, exitFlag := true }
  else
    let L := floodPubLoop base g excAt stop duration 0 true
    { base_clients := base, checks := L.checks, iters := L.iters,
      publishes := L.publishes, cycleLens := L.cycleLens,
      operations_count := L.operations_count, sleeps := L.sleeps,
      cleaned := base, fatalLog := false, enteredLoop := true,
      exitFlag := L.exitFlag }

/- ================================================================
   Run-flag lifetime traces
   ================================================================ -/

/-- A boolean trace that is monotone true-then-false with at least one
true and at least one false entry: the flag starts set, is cleared at
some point, and never returns to true afterwards — a single monotone
true-to-false transition. -/
def clearedOnce (l : List Bool) : Prop :=
  ∃ a b, 1 ≤ a ∧ 1 ≤ b ∧ l = List.replicate a true ++ List.replicate b false


/- ================================================================
   Helper lemmas
   ================================================================ -/

theorem pythonRound2_bounds (a b : ℤ) (v : ℚ) (h1 : (a : ℚ) ≤ v) (h2 : v < (b : ℚ)) :
    (a : ℚ) ≤ pythonRound2 v ∧ pythonRound2 v ≤ (b : ℚ) := by
  unfold pythonRound2
  have hl : (a * 100 : ℤ) ≤ ⌊v * 100 + 1 / 2⌋ := by
    rw [Int.le_floor]
    push_cast
    nlinarith
  have hu : ⌊v * 100 + 1 / 2⌋ < b * 100 + 1 := by
    rw [Int.floor_lt]
    push_cast
    nlinarith
  constructor
  · rw [le_div_iff₀ (by norm_num : (0 : ℚ) < 100)]
    have : ((a * 100 : ℤ) : ℚ) ≤ ((⌊v * 100 + 1 / 2⌋ : ℤ) : ℚ) := by exact_mod_cast hl
    push_cast at this ⊢
    linarith
  · rw [div_le_iff₀ (by norm_num : (0 : ℚ) < 100)]
    have hu2 : ⌊v * 100 + 1 / 2⌋ ≤ b * 100 := by omega
    have : ((⌊v * 100 + 1 / 2⌋ : ℤ) : ℚ) ≤ ((b * 100 : ℤ) : ℚ) := by exact_mod_cast hu2
    push_cast at this ⊢
    linarith

theorem randomRandint_bounds (a b : ℤ) (u : Nat) (hab : a ≤ b) :
    a ≤ randomRandint a b u ∧ randomRandint a b u ≤ b := by
  unfold randomRandint
  have hm : 0 < (b - a + 1).toNat := by omega
  have hlt : u % (b - a + 1).toNat < (b - a + 1).toNat := Nat.mod_lt u hm
  have hlt2 : ((u % (b - a + 1).toNat : Nat) : ℤ) < (((b - a + 1).toNat : Nat) : ℤ) := by
    exact_mod_cast hlt
  rw [Int.toNat_of_nonneg (by omega : (0 : ℤ) ≤ b - a + 1)] at hlt2
  have hnn : (0 : ℤ) ≤ ((u % (b - a + 1).toNat : Nat) : ℤ) := Int.natCast_nonneg _
  omega

/- ================================================================
   Claim theorems
   ================================================================ -/

/-- Claim C1, counterexample: the claim says the credential-guessing
timer fires at 25% of total duration measured from the moment run()
began, which for duration = 40 would be at 10 seconds; in the code the
timer is only started after the 10-second stabilization sleep, so the
activation is at 20 seconds, and no bruteforce activation at 10 seconds
exists in the run prelude. -/
theorem C1_schedule_counterexample :
    ("bruteforce_start", (40 : ℚ) * (25 / 100)) ∉
      SimulationManager.runPrelude 40 true true ∧
    ("bruteforce_start", (20 : ℚ)) ∈ SimulationManager.runPrelude 40 true true := by
  constructor
  · simp only [SimulationManager.runPrelude, if_true, List.mem_append,
      List.mem_singleton, Prod.mk.injEq, not_or]
    norm_num
  · simp only [SimulationManager.runPrelude, if_true, List.mem_append,
      List.mem_singleton, Prod.mk.injEq]
    norm_num

/-- Claim C1 (amended): the deferred activation of the credential-guessing
actor fires at the 10-second stabilization sleep plus 25% of total
duration after run() began (and the volumetric flood at 10 seconds plus
50%); with duration = 40 and bruteforce enabled the credential-guessing
activation is at 20 seconds after simulation start, which is no earlier
than 10 seconds but not at the 10-second offset. -/
theorem C1_amended_schedule :
    (∀ d : ℚ,
      ("bruteforce_start", 10 + d * (25 / 100)) ∈ SimulationManager.runPrelude d true true ∧
      ("ddos_start", 10 + d * (50 / 100)) ∈ SimulationManager.runPrelude d true true) ∧
    ("bruteforce_start", (20 : ℚ)) ∈ SimulationManager.runPrelude 40 true true ∧
    (10 : ℚ) ≤ 20 := by
  refine ⟨fun d => ⟨?_, ?_⟩, ?_, by norm_num⟩
  · simp [SimulationManager.runPrelude]
  · simp [SimulationManager.runPrelude]
  · simp only [SimulationManager.runPrelude, if_true, List.mem_append,
      List.mem_singleton, Prod.mk.injEq]
    norm_num

/-- Claim C2 (confirmed): SimulationManager.stop is idempotent: whatever
state one call to stop leaves the manager in, a second call returns that
state unchanged and issues no further shutdown side effects (no second
round of device.stop or attack.stop calls). -/
theorem C2_stop_idempotent (m : SimulationManagerSt) :
    SimulationManager.stop (SimulationManager.stop m).1 =
      ((SimulationManager.stop m).1, []) := by
  cases hm : m.running <;> simp [SimulationManager.stop, hm]

/-- Claim C8 (confirmed): every value generated by IoTDevice.generate_data
lies in the documented range of the device category: temperature in
[15, 30], humidity in [30, 70], luminosity an integer in [0, 1000], any
other category an integer in [0, 100].  u is the random() draw of
random.uniform, which lies in [0, 1). -/
theorem C8_generate_data_ranges (id ty hw : String) (u : ℚ) (n : Nat) (ts : ℚ)
    (hu0 : 0 ≤ u) (hu1 : u < 1) :
    (ty = "temperature" →
      15 ≤ (IoTDevice.generate_data id ty hw u n ts).value ∧
        (IoTDevice.generate_data id ty hw u n ts).value ≤ 30) ∧
    (ty = "humidity" →
      30 ≤ (IoTDevice.generate_data id ty hw u n ts).value ∧
        (IoTDevice.generate_data id ty hw u n ts).value ≤ 70) ∧
    (ty = "luminosity" →
      ∃ k : ℤ, (IoTDevice.generate_data id ty hw u n ts).value = (k : ℚ) ∧
        0 ≤ k ∧ k ≤ 1000) ∧
    (ty ≠ "temperature" → ty ≠ "humidity" → ty ≠ "luminosity" →
      ∃ k : ℤ, (IoTDevice.generate_data id ty hw u n ts).value = (k : ℚ) ∧
        0 ≤ k ∧ k ≤ 100) := by
  refine ⟨fun h => ?_, fun h => ?_, fun h => ?_, fun h1 h2 h3 => ?_⟩
  · have hb := pythonRound2_bounds 15 30 (randomUniform 15 30 u)
      (by unfold randomUniform; push_cast; nlinarith)
      (by unfold randomUniform; push_cast; nlinarith)
    simp only [IoTDevice.generate_data, h, if_true, reduceIte]
    push_cast at hb
    exact hb
  · have hb := pythonRound2_bounds 30 70 (randomUniform 30 70 u)
      (by unfold randomUniform; push_cast; nlinarith)
      (by unfold randomUniform; push_cast; nlinarith)
    have hne : ty ≠ "temperature" := by rw [h]; decide
    simp only [IoTDevice.generate_data, h, hne, reduceIte]
    push_cast at hb
    exact hb
  · have hb := randomRandint_bounds 0 1000 n (by norm_num)
    have hne1 : ty ≠ "temperature" := by rw [h]; decide
    have hne2 : ty ≠ "humidity" := by rw [h]; decide
    simp only [IoTDevice.generate_data, h, hne1, hne2, reduceIte]
    exact ⟨randomRandint 0 1000 n, rfl, hb.1, hb.2⟩
  · have hb := randomRandint_bounds 0 100 n (by norm_num)
    simp only [IoTDevice.generate_data, h1, h2, h3, reduceIte]
    exact ⟨randomRandint 0 100 n, rfl, hb.1, hb.2⟩

/-- Witness for C8 at a concrete input: device of category temperature,
random draw one half. -/
theorem C8_generate_data_ranges_witness :
    (0 : ℚ) ≤ 1 / 2 ∧ (1 : ℚ) / 2 < 1 ∧
    (15 ≤ (IoTDevice.generate_data "temperature_1" "temperature" "ESP32" (1 / 2) 3 0).value ∧
      (IoTDevice.generate_data "temperature_1" "temperature" "ESP32" (1 / 2) 3 0).value ≤ 30) := by
  refine ⟨by norm_num, by norm_num, ?_⟩
  exact (C8_generate_data_ranges "temperature_1" "temperature" "ESP32" (1 / 2) 3 0
    (by norm_num) (by norm_num)).1 rfl

/- Lemmas on the device loop. -/

theorem deviceLoop_checks_shape (stop exc : Nat → Bool) :
    ∀ fuel i r, ∃ a b, (deviceLoop stop exc fuel i r).checks =
      List.replicate a true ++ List.replicate b false := by
  intro fuel
  induction fuel with
  | zero => intro i r; exact ⟨0, 0, rfl⟩
  | succ n ih =>
    intro i r
    simp only [deviceLoop]
    by_cases hc : (if stop i then false else r) = true
    · rw [if_pos hc]
      by_cases hexc : exc i = true
      · rw [if_pos hexc]
        exact ⟨1, 0, by rw [hc]; rfl⟩
      · rw [if_neg hexc]
        obtain ⟨a, b, h⟩ := ih (i + 1) (if stop i then false else r)
        refine ⟨a + 1, b, ?_⟩
        rw [hc] at h ⊢
        rw [h, List.replicate_succ, List.cons_append]
    · rw [if_neg hc]
      rw [Bool.not_eq_true] at hc
      exact ⟨0, 1, by rw [hc]; rfl⟩

theorem deviceLoop_iters_le (stop exc : Nat → Bool) :
    ∀ fuel i r, (deviceLoop stop exc fuel i r).iters ≤
      (deviceLoop stop exc fuel i r).checks.count true := by
  intro fuel
  induction fuel with
  | zero => intro i r; exact Nat.le_refl 0
  | succ n ih =>
    intro i r
    simp only [deviceLoop]
    by_cases hc : (if stop i then false else r) = true
    · rw [if_pos hc]
      by_cases hexc : exc i = true
      · rw [if_pos hexc]
        rw [hc]
        simp [List.count_cons]
      · rw [if_neg hexc]
        have h := ih (i + 1) (if stop i then false else r)
        rw [hc] at h ⊢
        simp only [List.count_cons_self]
        omega
    · rw [if_neg hc]
      rw [Bool.not_eq_true] at hc
      rw [hc]
      simp [List.count_cons]

theorem deviceLoop_final (stop exc : Nat → Bool) :
    ∀ fuel i r, (deviceLoop stop exc fuel i r).running_final = false := by
  intro fuel
  induction fuel with
  | zero => intro i r; rfl
  | succ n ih =>
    intro i r
    simp only [deviceLoop]
    by_cases hc : (if stop i then false else r) = true
    · rw [if_pos hc]
      by_cases hexc : exc i = true
      · rw [if_pos hexc]
      · rw [if_neg hexc]
        exact ih (i + 1) _
    · rw [if_neg hc]

/- Lemmas on the brute-force loop. -/

theorem bruteLoop_reports (duration rate : ℚ) (stop exc : Nat → Bool) :
    ∀ fuel i t r, (bruteLoop duration rate stop exc fuel i t r).finalReports = 1 ∧
      (bruteLoop duration rate stop exc fuel i t r).running_final = false := by
  intro fuel
  induction fuel with
  | zero => intro i t r; exact ⟨rfl, rfl⟩
  | succ n ih =>
    intro i t r
    simp only [bruteLoop]
    by_cases hc : (if stop i then false else r) = true ∧ t < duration
    · rw [if_pos hc]
      by_cases hexc : exc i = true
      · rw [if_pos hexc]
        exact ⟨rfl, rfl⟩
      · rw [if_neg hexc]
        exact ih (i + 1) (t + 1 / rate) _
    · rw [if_neg hc]
      exact ⟨rfl, rfl⟩

theorem bruteLoop_checks_shape (duration rate : ℚ) (stop exc : Nat → Bool) :
    ∀ fuel i t r, ∃ a b, (bruteLoop duration rate stop exc fuel i t r).checks =
      List.replicate a true ++ List.replicate b false := by
  intro fuel
  induction fuel with
  | zero => intro i t r; exact ⟨0, 0, rfl⟩
  | succ n ih =>
    intro i t r
    simp only [bruteLoop]
    by_cases hc : (if stop i then false else r) = true ∧ t < duration
    · rw [if_pos hc]
      by_cases hexc : exc i = true
      · rw [if_pos hexc]
        exact ⟨1, 0, by rw [hc.1]; rfl⟩
      · rw [if_neg hexc]
        obtain ⟨a, b, h⟩ := ih (i + 1) (t + 1 / rate) (if stop i then false else r)
        refine ⟨a + 1, b, ?_⟩
        rw [hc.1] at h ⊢
        rw [h, List.replicate_succ, List.cons_append]
    · rw [if_neg hc]
      by_cases hr : (if stop i then false else r) = true
      · exact ⟨1, 0, by rw [hr]; rfl⟩
      · rw [Bool.not_eq_true] at hr
        exact ⟨0, 1, by rw [hr]; rfl⟩

theorem bruteLoop_iters_le (duration rate : ℚ) (stop exc : Nat → Bool) :
    ∀ fuel i t r, (bruteLoop duration rate stop exc fuel i t r).iters ≤
      (bruteLoop duration rate stop exc fuel i t r).checks.count true := by
  intro fuel
  induction fuel with
  | zero => intro i t r; exact Nat.le_refl 0
  | succ n ih =>
    intro i t r
    simp only [bruteLoop]
    by_cases hc : (if stop i then false else r) = true ∧ t < duration
    · rw [if_pos hc]
      by_cases hexc : exc i = true
      · rw [if_pos hexc]
        rw [hc.1]
        simp [List.count_cons]
      · rw [if_neg hexc]
        have h := ih (i + 1) (t + 1 / rate) (if stop i then false else r)
        rw [hc.1] at h ⊢
        simp only [List.count_cons_self]
        omega
    · rw [if_neg hc]
      simp [List.count_cons]

theorem bruteLoop_attempts_eq_iters (duration rate : ℚ) (stop exc : Nat → Bool) :
    ∀ fuel i t r, (bruteLoop duration rate stop exc fuel i t r).password_attempts =
      (bruteLoop duration rate stop exc fuel i t r).iters := by
  intro fuel
  induction fuel with
  | zero => intro i t r; rfl
  | succ n ih =>
    intro i t r
    simp only [bruteLoop]
    by_cases hc : (if stop i then false else r) = true ∧ t < duration
    · rw [if_pos hc]
      by_cases hexc : exc i = true
      · rw [if_pos hexc]
      · rw [if_neg hexc]
        have h := ih (i + 1) (t + 1 / rate) (if stop i then false else r)
        simp only []
        omega
    · rw [if_neg hc]

theorem bruteLoop_fuel_enough (duration rate : ℚ) (stop exc : Nat → Bool)
    (hrate : 0 < rate) :
    ∀ (fuel : Nat) (i : Nat) (t : ℚ) (r : Bool),
      (duration - t) * rate + 1 < (fuel : ℚ) → 1 ≤ fuel →
      (bruteLoop duration rate stop exc fuel i t r).fuelOut = false := by
  intro fuel
  induction fuel with
  | zero => intro i t r _ h1; omega
  | succ n ih =>
    intro i t r h _
    simp only [bruteLoop]
    by_cases hc : (if stop i then false else r) = true ∧ t < duration
    · rw [if_pos hc]
      by_cases hexc : exc i = true
      · rw [if_pos hexc]
      · rw [if_neg hexc]
        have hlt : (duration - t) * rate < (n : ℚ) := by
          push_cast at h
          linarith
        have hpos : (0 : ℚ) < (duration - t) * rate :=
          mul_pos (by linarith [hc.2]) hrate
        have hn : (0 : ℚ) < (n : ℚ) := lt_trans hpos hlt
        have hn0 : 0 < n := by exact_mod_cast hn
        apply ih
        · have hexpand : (duration - (t + 1 / rate)) * rate =
              (duration - t) * rate - 1 := by
            field_simp
            ring
          rw [hexpand]
          linarith
        · omega
    · rw [if_neg hc]

theorem bruteLoop_exit_condition (duration rate : ℚ) (stop exc : Nat → Bool) :
    ∀ fuel i t r, (bruteLoop duration rate stop exc fuel i t r).fuelOut = false →
      ((bruteLoop duration rate stop exc fuel i t r).excExit = true ∨
        (bruteLoop duration rate stop exc fuel i t r).exitFlag = false ∨
        duration ≤ (bruteLoop duration rate stop exc fuel i t r).exitElapsed) := by
  intro fuel
  induction fuel with
  | zero =>
    intro i t r h
    exact absurd h (by simp [bruteLoop])
  | succ n ih =>
    intro i t r h
    simp only [bruteLoop] at h ⊢
    by_cases hc : (if stop i then false else r) = true ∧ t < duration
    · rw [if_pos hc] at h ⊢
      by_cases hexc : exc i = true
      · rw [if_pos hexc]
        exact Or.inl rfl
      · rw [if_neg hexc] at h ⊢
        exact ih (i + 1) (t + 1 / rate) (if stop i then false else r) h
    · rw [if_neg hc] at h ⊢
      rw [not_and_or] at hc
      rcases hc with hc | hc
      · rw [Bool.not_eq_true] at hc
        exact Or.inr (Or.inl hc)
      · exact Or.inr (Or.inr (le_of_not_lt hc))

theorem bruteLoop_no_exc (duration rate : ℚ) (stop exc : Nat → Bool)
    (hexc : ∀ j, exc j = false) :
    ∀ fuel i t r, (bruteLoop duration rate stop exc fuel i t r).excExit = false := by
  intro fuel
  induction fuel with
  | zero => intro i t r; rfl
  | succ n ih =>
    intro i t r
    simp only [bruteLoop]
    by_cases hc : (if stop i then false else r) = true ∧ t < duration
    · rw [if_pos hc]
      rw [if_neg (by rw [hexc i]; exact Bool.false_ne_true)]
      exact ih (i + 1) (t + 1 / rate) _
    · rw [if_neg hc]

/-- Claim C9 (confirmed): with positive rate the credential-guessing
attempt loop terminates within the modelled fuel bound (it does not run
past ceil(duration * rate) + 2 checks), on exit either the run-flag was
observed cleared or the elapsed wall-clock time had reached the duration
(exception exits aside, and exactly at the first failing check, since
the loop leaves at the first check that fails), and the final attempt
count report in the finally block runs exactly once on every exit path,
exception exits included. -/
theorem C9_bruteforce_exit_and_single_report (rate duration : ℚ)
    (stop exc : Nat → Bool) (hrate : 0 < rate) :
    (BruteForceAttack.start rate duration stop exc (⌈duration * rate⌉₊ + 2)).fuelOut = false ∧
    (BruteForceAttack.start rate duration stop exc (⌈duration * rate⌉₊ + 2)).finalReports = 1 ∧
    (BruteForceAttack.start rate duration stop exc (⌈duration * rate⌉₊ + 2)).running_final = false ∧
    ((BruteForceAttack.start rate duration stop exc (⌈duration * rate⌉₊ + 2)).excExit = true ∨
      (BruteForceAttack.start rate duration stop exc (⌈duration * rate⌉₊ + 2)).exitFlag = false ∨
      duration ≤ (BruteForceAttack.start rate duration stop exc (⌈duration * rate⌉₊ + 2)).exitElapsed) ∧
    ((∀ j, exc j = false) →
      ((BruteForceAttack.start rate duration stop exc (⌈duration * rate⌉₊ + 2)).exitFlag = false ∨
        duration ≤ (BruteForceAttack.start rate duration stop exc (⌈duration * rate⌉₊ + 2)).exitElapsed)) := by
  have hceil : duration * rate ≤ (⌈duration * rate⌉₊ : ℚ) := Nat.le_ceil _
  have hfuel : (duration - 0) * rate + 1 < ((⌈duration * rate⌉₊ + 2 : ℕ) : ℚ) := by
    push_cast
    linarith
  have hout := bruteLoop_fuel_enough duration rate stop exc hrate
    (⌈duration * rate⌉₊ + 2) 0 0 true hfuel (by omega)
  have hrep := bruteLoop_reports duration rate stop exc (⌈duration * rate⌉₊ + 2) 0 0 true
  have hexit := bruteLoop_exit_condition duration rate stop exc
    (⌈duration * rate⌉₊ + 2) 0 0 true hout
  refine ⟨hout, hrep.1, hrep.2, hexit, fun hne => ?_⟩
  have hnoexc := bruteLoop_no_exc duration rate stop exc hne
    (⌈duration * rate⌉₊ + 2) 0 0 true
  rcases hexit with h | h
  · rw [hnoexc] at h
    exact absurd h Bool.false_ne_true
  · exact h

/-- Witness for C9 at rate 2, duration 1, no stop signal, no exception. -/
theorem C9_bruteforce_witness :
    (0 : ℚ) < 2 ∧
    (BruteForceAttack.start 2 1 (fun _ => false) (fun _ => false)
      (⌈(1 : ℚ) * 2⌉₊ + 2)).fuelOut = false ∧
    (BruteForceAttack.start 2 1 (fun _ => false) (fun _ => false)
      (⌈(1 : ℚ) * 2⌉₊ + 2)).finalReports = 1 ∧
    ((BruteForceAttack.start 2 1 (fun _ => false) (fun _ => false)
        (⌈(1 : ℚ) * 2⌉₊ + 2)).exitFlag = false ∨
      (1 : ℚ) ≤ (BruteForceAttack.start 2 1 (fun _ => false) (fun _ => false)
        (⌈(1 : ℚ) * 2⌉₊ + 2)).exitElapsed) := by
  have h := C9_bruteforce_exit_and_single_report 2 1
    (fun _ => false) (fun _ => false) (by norm_num)
  exact ⟨by norm_num, h.1, h.2.1, h.2.2.2.2 (fun j => rfl)⟩

/- Lemmas on the connection-flood loop. -/

theorem floodConnBatch_mem (ok : Nat → Bool) (n : Nat) (j : Nat) :
    j ∈ floodConnBatch ok n ↔ (j < n ∧ ok j = true) := by
  simp [floodConnBatch, List.mem_filter, List.mem_range]

theorem floodConnBatch_length_le (ok : Nat → Bool) (n : Nat) :
    (floodConnBatch ok n).length ≤ n := by
  calc (floodConnBatch ok n).length ≤ (List.range n).length :=
        List.length_filter_le _ _
    _ = n := List.length_range n

theorem floodConnLoop_checks_shape (rate : Nat) (ok : Nat → Nat → Bool)
    (stop : Nat → Bool) :
    ∀ remaining i r, ∃ a b, (floodConnLoop rate ok stop remaining i r).checks =
      List.replicate a true ++ List.replicate b false := by
  intro remaining
  induction remaining with
  | zero =>
    intro i r
    simp only [floodConnLoop]
    by_cases hr : (if stop i then false else r) = true
    · exact ⟨1, 0, by rw [hr]; rfl⟩
    · rw [Bool.not_eq_true] at hr
      exact ⟨0, 1, by rw [hr]; rfl⟩
  | succ n ih =>
    intro i r
    simp only [floodConnLoop]
    by_cases hc : (if stop i then false else r) = true
    · rw [if_pos hc]
      obtain ⟨a, b, h⟩ := ih (i + 1) (if stop i then false else r)
      refine ⟨a + 1, b, ?_⟩
      rw [hc] at h ⊢
      rw [h, List.replicate_succ, List.cons_append]
    · rw [if_neg hc]
      rw [Bool.not_eq_true] at hc
      exact ⟨0, 1, by rw [hc]; rfl⟩

theorem floodConnLoop_iters_le (rate : Nat) (ok : Nat → Nat → Bool)
    (stop : Nat → Bool) :
    ∀ remaining i r, (floodConnLoop rate ok stop remaining i r).iters ≤
      (floodConnLoop rate ok stop remaining i r).checks.count true := by
  intro remaining
  induction remaining with
  | zero => intro i r; exact Nat.zero_le _
  | succ n ih =>
    intro i r
    simp only [floodConnLoop]
    by_cases hc : (if stop i then false else r) = true
    · rw [if_pos hc]
      have h := ih (i + 1) (if stop i then false else r)
      rw [hc] at h ⊢
      simp only [List.count_cons_self]
      omega
    · rw [if_neg hc]
      simp [List.count_cons]

theorem floodConnLoop_ops_le (rate : Nat) (ok : Nat → Nat → Bool)
    (stop : Nat → Bool) :
    ∀ remaining i r, (floodConnLoop rate ok stop remaining i r).operations_count ≤
      (floodConnLoop rate ok stop remaining i r).iters * connBatchSize rate := by
  intro remaining
  induction remaining with
  | zero => intro i r; exact Nat.zero_le _
  | succ n ih =>
    intro i r
    simp only [floodConnLoop]
    by_cases hc : (if stop i then false else r) = true
    · rw [if_pos hc]
      have h := ih (i + 1) (if stop i then false else r)
      have hb := floodConnBatch_length_le (ok i) (connBatchSize rate)
      simp only []
      have hmul : (1 + (floodConnLoop rate ok stop n (i + 1)
          (if stop i then false else r)).iters) * connBatchSize rate =
          connBatchSize rate + (floodConnLoop rate ok stop n (i + 1)
            (if stop i then false else r)).iters * connBatchSize rate := by
        ring
      omega
    · rw [if_neg hc]
      exact Nat.zero_le _

theorem floodConnLoop_clients_len (rate : Nat) (ok : Nat → Nat → Bool)
    (stop : Nat → Bool) :
    ∀ remaining i r, (floodConnLoop rate ok stop remaining i r).clients.length =
      (floodConnLoop rate ok stop remaining i r).operations_count := by
  intro remaining
  induction remaining with
  | zero => intro i r; rfl
  | succ n ih =>
    intro i r
    simp only [floodConnLoop]
    by_cases hc : (if stop i then false else r) = true
    · rw [if_pos hc]
      have h := ih (i + 1) (if stop i then false else r)
      simp only [List.length_append, List.length_map]
      omega
    · rw [if_neg hc]
      rfl

theorem floodConnLoop_zero_batch (rate : Nat) (ok : Nat → Nat → Bool)
    (stop : Nat → Bool) (hzero : connBatchSize rate = 0)
    (hstop : ∀ j, stop j = false) :
    ∀ remaining i, (floodConnLoop rate ok stop remaining i true).operations_count = 0 ∧
      (floodConnLoop rate ok stop remaining i true).clients = [] ∧
      (floodConnLoop rate ok stop remaining i true).sleeps = remaining ∧
      (floodConnLoop rate ok stop remaining i true).iters = remaining := by
  intro remaining
  induction remaining with
  | zero =>
    intro i
    simp [floodConnLoop, hstop i]
  | succ n ih =>
    intro i
    have h := ih (i + 1)
    have hr1 : (if stop i then false else true) = true := by simp [hstop i]
    simp only [floodConnLoop]
    rw [if_pos hr1, hr1]
    have hbatch : floodConnBatch (ok i) (connBatchSize rate) = [] := by
      rw [hzero]
      rfl
    simp only [hbatch, List.length_nil, List.map_nil, List.nil_append]
    refine ⟨?_, ?_, ?_, ?_⟩
    · omega
    · exact h.2.1
    · omega
    · omega

/-- Claim C6 (confirmed): in every one-second cycle the connection-flood
actor attempts exactly the batch size min(10, rate / 10) connections
(integer division), so never more than min(10, rate / 10); successes are
appended and counted one-to-one; and within a batch a failed attempt is
swallowed: attempt j joins the batch result exactly when j is below the
batch bound and attempt j itself succeeds, independently of failures of
earlier attempts in the same batch. -/
theorem C6_connection_flood_cycle_bound (rate duration : Nat)
    (ok : Nat → Nat → Bool) (stop : Nat → Bool) :
    connBatchSize rate = min 10 (rate / 10) ∧
    (DDoSAttack.flood_connections rate duration ok stop).operations_count ≤
      (DDoSAttack.flood_connections rate duration ok stop).iters * min 10 (rate / 10) ∧
    (DDoSAttack.flood_connections rate duration ok stop).clients.length =
      (DDoSAttack.flood_connections rate duration ok stop).operations_count ∧
    (∀ i j, j ∈ floodConnBatch (ok i) (connBatchSize rate) ↔
      (j < min 10 (rate / 10) ∧ ok i j = true)) :=
  ⟨rfl, floodConnLoop_ops_le rate ok stop duration 0 true,
    floodConnLoop_clients_len rate ok stop duration 0 true,
    fun i j => floodConnBatch_mem (ok i) (connBatchSize rate) j⟩

/-- Witness for C6: rate 25 gives batches of size two; with the attempt
oracle failing attempt 1, attempt 2 of a batch still happens, so the
failure at attempt 1 did not halt the remainder of the batch. -/
theorem C6_connection_flood_witness :
    2 ∈ floodConnBatch ((fun _ j => j != 1) 0) (connBatchSize 25) ↔
      (2 < min 10 (25 / 10) ∧ (fun _ j => j != 1) 0 2 = true) :=
  (C6_connection_flood_cycle_bound 25 2 (fun _ j => j != 1)
    (fun _ => false)).2.2.2 0 2

/-- Claim C10 (confirmed): with rate below 10 the per-cycle batch size,
the integer floor of rate / 10 capped at 10, is zero, so a
connection-flood run with no stop signal attempts no connection at all:
the operation counter stays 0 and no client is ever appended, while the
actor still sleeps once per cycle through its full duration. -/
theorem C10_low_rate_attempts_nothing (rate duration : Nat)
    (ok : Nat → Nat → Bool) (stop : Nat → Bool) (hrate : rate < 10)
    (hstop : ∀ j, stop j = false) :
    (DDoSAttack.flood_connections rate duration ok stop).operations_count = 0 ∧
    (DDoSAttack.flood_connections rate duration ok stop).clients = [] ∧
    (DDoSAttack.flood_connections rate duration ok stop).sleeps = duration ∧
    (DDoSAttack.flood_connections rate duration ok stop).iters = duration := by
  have h0 : rate / 10 = 0 := Nat.div_eq_of_lt hrate
  have hzero : connBatchSize rate = 0 := by simp [connBatchSize, h0]
  exact floodConnLoop_zero_batch rate ok stop hzero hstop duration 0

/-- Witness for C10 at rate 7, duration 3: the counter stays zero and
the actor sleeps through all three seconds. -/
theorem C10_low_rate_witness :
    7 < 10 ∧
    (DDoSAttack.flood_connections 7 3 (fun _ _ => true) (fun _ => false)).operations_count = 0 ∧
    (DDoSAttack.flood_connections 7 3 (fun _ _ => true) (fun _ => false)).sleeps = 3 := by
  have h := C10_low_rate_attempts_nothing 7 3 (fun _ _ => true) (fun _ => false)
    (by norm_num) (fun j => rfl)
  exact ⟨by norm_num, h.1, h.2.2.1⟩

/- Lemmas on the publish-flood actor. -/

theorem randomPayload_length (gch : Nat → Nat) : (randomPayload gch).length = 50 := rfl

theorem floodTopics_length : floodTopics.length = 10 := rfl

theorem floodPubCycle_length (clients : List Nat) (topics : List String)
    (gc : Nat → Nat → Nat → Nat) :
    (floodPubCycle clients topics gc).length = clients.length * topics.length := by
  unfold floodPubCycle
  induction clients with
  | nil => simp
  | cons c cs ih =>
    rw [List.flatMap_cons, List.length_append, List.length_map, List.length_range,
      List.length_cons, Nat.succ_mul, ih]
    omega

theorem floodPubCycle_payloads (clients : List Nat) (topics : List String)
    (gc : Nat → Nat → Nat → Nat) :
    ∀ p ∈ floodPubCycle clients topics gc, p.payload.length = 50 := by
  intro p hp
  unfold floodPubCycle at hp
  simp only [List.mem_flatMap, List.mem_map, List.mem_range] at hp
  obtain ⟨c, _hc, tj, _htj, hpe⟩ := hp
  subst hpe
  exact randomPayload_length _

theorem floodPubLoop_ops_len (clients : List Nat) (g : Nat → Nat → Nat → Nat → Nat)
    (excAt : Nat → Option Nat) (stop : Nat → Bool) :
    ∀ remaining i r, (floodPubLoop clients g excAt stop remaining i r).operations_count =
      (floodPubLoop clients g excAt stop remaining i r).publishes.length := by
  intro remaining
  induction remaining with
  | zero => intro i r; rfl
  | succ n ih =>
    intro i r
    simp only [floodPubLoop]
    by_cases hc : (if stop i then false else r) = true
    · rw [if_pos hc]
      have h := ih (i + 1) (if stop i then false else r)
      simp only [List.length_append]
      omega
    · rw [if_neg hc]
      rfl

theorem floodPubLoop_cycleLens (clients : List Nat) (g : Nat → Nat → Nat → Nat → Nat)
    (excAt : Nat → Option Nat) (stop : Nat → Bool) :
    ∀ remaining i r pos,
      pos < (floodPubLoop clients g excAt stop remaining i r).cycleLens.length →
      excAt (i + pos) = none →
      (floodPubLoop clients g excAt stop remaining i r).cycleLens.getD pos 0 =
        clients.length * 10 := by
  intro remaining
  induction remaining with
  | zero =>
    intro i r pos hlt _
    simp only [floodPubLoop, List.length_nil] at hlt
    omega
  | succ n ih =>
    intro i r pos hlt hnone
    simp only [floodPubLoop] at hlt ⊢
    by_cases hc : (if stop i then false else r) = true
    · rw [if_pos hc] at hlt ⊢
      cases pos with
      | zero =>
        rw [Nat.add_zero] at hnone
        simp only [hnone, List.getD_cons_zero]
        rw [floodPubCycle_length clients floodTopics (g i), floodTopics_length]
      | succ pos =>
        simp only [List.getD_cons_succ]
        have hidx : i + (pos + 1) = (i + 1) + pos := by omega
        rw [hidx] at hnone
        simp only [List.length_cons] at hlt
        exact ih (i + 1) (if stop i then false else r) pos (by omega) hnone
    · rw [if_neg hc] at hlt
      simp only [List.length_nil] at hlt
      omega

theorem floodPubLoop_checks_shape (clients : List Nat) (g : Nat → Nat → Nat → Nat → Nat)
    (excAt : Nat → Option Nat) (stop : Nat → Bool) :
    ∀ remaining i r, ∃ a b, (floodPubLoop clients g excAt stop remaining i r).checks =
      List.replicate a true ++ List.replicate b false := by
  intro remaining
  induction remaining with
  | zero =>
    intro i r
    simp only [floodPubLoop]
    by_cases hr : (if stop i then false else r) = true
    · exact ⟨1, 0, by rw [hr]; rfl⟩
    · rw [Bool.not_eq_true] at hr
      exact ⟨0, 1, by rw [hr]; rfl⟩
  | succ n ih =>
    intro i r
    simp only [floodPubLoop]
    by_cases hc : (if stop i then false else r) = true
    · rw [if_pos hc]
      obtain ⟨a, b, h⟩ := ih (i + 1) (if stop i then false else r)
      refine ⟨a + 1, b, ?_⟩
      rw [hc] at h ⊢
      rw [h, List.replicate_succ, List.cons_append]
    · rw [if_neg hc]
      rw [Bool.not_eq_true] at hc
      exact ⟨0, 1, by rw [hc]; rfl⟩

theorem floodPubLoop_iters_le (clients : List Nat) (g : Nat → Nat → Nat → Nat → Nat)
    (excAt : Nat → Option Nat) (stop : Nat → Bool) :
    ∀ remaining i r, (floodPubLoop clients g excAt stop remaining i r).iters ≤
      (floodPubLoop clients g excAt stop remaining i r).checks.count true := by
  intro remaining
  induction remaining with
  | zero => intro i r; exact Nat.zero_le _
  | succ n ih =>
    intro i r
    simp only [floodPubLoop]
    by_cases hc : (if stop i then false else r) = true
    · rw [if_pos hc]
      have h := ih (i + 1) (if stop i then false else r)
      rw [hc] at h ⊢
      simp only [List.count_cons_self]
      omega
    · rw [if_neg hc]
      simp [List.count_cons]

/-- Claim C4 (confirmed): on every exit of the publish loop — normal
completion, duration expiry, stop signal, or with an exception raised in
some cycles (caught by the in-loop handler) — the cleanup pass attempts
to close every pooled connection: the list of clients on which
loop_stop/disconnect is attempted equals the pool, for every oracle
pattern of setup outcomes, mid-cycle exceptions, stop signals, per-client
cleanup failures, and every duration. -/
theorem C4_publish_flood_cleanup (ok : Nat → Bool) (g : Nat → Nat → Nat → Nat → Nat)
    (excAt : Nat → Option Nat) (stop : Nat → Bool) (cleanOk : Nat → Bool)
    (duration : Nat) :
    (DDoSAttack.flood_publish ok g excAt stop cleanOk duration).cleaned =
      (DDoSAttack.flood_publish ok g excAt stop cleanOk duration).base_clients := by
  simp only [DDoSAttack.flood_publish]
  by_cases hb : ((List.range 5).filter ok).isEmpty
  · rw [if_pos hb]
    exact (List.isEmpty_iff.mp hb).symm
  · rw [if_neg hb]

/-- Claim C5 (confirmed): if none of the five attempted pool connections
can be established at setup, the publish-flood actor logs the fatal
setup error and returns immediately: the main loop is never entered, no
while-condition check happens, no publish is issued, and the operation
counter stays zero.  The embedded actor is a total function returning
normally, so nothing propagates to the orchestrator or sibling actors. -/
theorem C5_publish_flood_aborts_on_empty_pool (ok : Nat → Bool)
    (g : Nat → Nat → Nat → Nat → Nat) (excAt : Nat → Option Nat)
    (stop : Nat → Bool) (cleanOk : Nat → Bool) (duration : Nat)
    (hok : ∀ j, j < 5 → ok j = false) :
    (DDoSAttack.flood_publish ok g excAt stop cleanOk duration).fatalLog = true ∧
    (DDoSAttack.flood_publish ok g excAt stop cleanOk duration).enteredLoop = false ∧
    (DDoSAttack.flood_publish ok g excAt stop cleanOk duration).operations_count = 0 ∧
    (DDoSAttack.flood_publish ok g excAt stop cleanOk duration).publishes = [] ∧
    (DDoSAttack.flood_publish ok g excAt stop cleanOk duration).iters = 0 ∧
    (DDoSAttack.flood_publish ok g excAt stop cleanOk duration).checks = [] := by
  have hemp : ((List.range 5).filter ok).isEmpty = true := by
    rw [List.isEmpty_iff, List.filter_eq_nil_iff]
    intro a ha
    rw [hok a (List.mem_range.mp ha)]
    exact Bool.false_ne_true
  simp [DDoSAttack.flood_publish, hemp]

/-- Witness for C5: the all-failing setup oracle. -/
theorem C5_publish_flood_witness :
    (DDoSAttack.flood_publish (fun _ => false) (fun _ _ _ _ => 0) (fun _ => none)
      (fun _ => false) (fun _ => true) 4).fatalLog = true ∧
    (DDoSAttack.flood_publish (fun _ => false) (fun _ _ _ _ => 0) (fun _ => none)
      (fun _ => false) (fun _ => true) 4).enteredLoop = false ∧
    (DDoSAttack.flood_publish (fun _ => false) (fun _ _ _ _ => 0) (fun _ => none)
      (fun _ => false) (fun _ => true) 4).operations_count = 0 := by
  have h := C5_publish_flood_aborts_on_empty_pool (fun _ => false) (fun _ _ _ _ => 0)
    (fun _ => none) (fun _ => false) (fun _ => true) 4 (fun j _ => rfl)
  exact ⟨h.1, h.2.1, h.2.2.1⟩

/-- Claim C7 (confirmed): the publish flood uses exactly ten flood
topics; one cycle issues exactly pool_size * topic_count publishes, one
50-character payload per pooled connection per topic; in a full run,
every cycle in which no exception fires issues exactly
base_clients.length * 10 publishes; the operation counter equals the
total number of publishes issued (one increment per publish); and when
all five setup connections succeed the pool size is the default five, so
a cycle is 5 * 10 = 50 publishes. -/
theorem C7_publish_flood_cycle_counts (ok : Nat → Bool)
    (g : Nat → Nat → Nat → Nat → Nat) (excAt : Nat → Option Nat)
    (stop : Nat → Bool) (cleanOk : Nat → Bool) (duration : Nat)
    (clients : List Nat) (gc : Nat → Nat → Nat → Nat) :
    floodTopics.length = 10 ∧
    (floodPubCycle clients floodTopics gc).length = clients.length * 10 ∧
    (∀ p ∈ floodPubCycle clients floodTopics gc, p.payload.length = 50) ∧
    (∀ pos, pos < (DDoSAttack.flood_publish ok g excAt stop cleanOk duration).cycleLens.length →
      excAt pos = none →
      (DDoSAttack.flood_publish ok g excAt stop cleanOk duration).cycleLens.getD pos 0 =
        (DDoSAttack.flood_publish ok g excAt stop cleanOk duration).base_clients.length * 10) ∧
    (DDoSAttack.flood_publish ok g excAt stop cleanOk duration).operations_count =
      (DDoSAttack.flood_publish ok g excAt stop cleanOk duration).publishes.length ∧
    (DDoSAttack.flood_publish (fun _ => true) g excAt stop cleanOk duration).base_clients.length = 5 := by
  refine ⟨rfl, ?_, floodPubCycle_payloads clients floodTopics gc, ?_, ?_, ?_⟩
  · rw [floodPubCycle_length clients floodTopics gc, floodTopics_length]
  · intro pos hlt hnone
    simp only [DDoSAttack.flood_publish] at hlt ⊢
    by_cases hb : ((List.range 5).filter ok).isEmpty
    · rw [if_pos hb] at hlt
      simp only [List.length_nil] at hlt
      omega
    · rw [if_neg hb] at hlt ⊢
      have h := floodPubLoop_cycleLens ((List.range 5).filter ok) g excAt stop
        duration 0 true pos hlt (by rw [Nat.zero_add]; exact hnone)
      exact h
  · simp only [DDoSAttack.flood_publish]
    by_cases hb : ((List.range 5).filter ok).isEmpty
    · rw [if_pos hb]
      rfl
    · rw [if_neg hb]
      exact floodPubLoop_ops_len ((List.range 5).filter ok) g excAt stop duration 0 true
  · simp only [DDoSAttack.flood_publish]
    rfl

/-- Witness for C7: all five setup connections succeed, duration two, no
exception; the first executed cycle published exactly five times ten
messages. -/
theorem C7_publish_flood_witness :
    0 < (DDoSAttack.flood_publish (fun _ => true) (fun _ _ _ _ => 0) (fun _ => none)
      (fun _ => false) (fun _ => true) 2).cycleLens.length ∧
    (DDoSAttack.flood_publish (fun _ => true) (fun _ _ _ _ => 0) (fun _ => none)
      (fun _ => false) (fun _ => true) 2).cycleLens.getD 0 0 =
      (DDoSAttack.flood_publish (fun _ => true) (fun _ _ _ _ => 0) (fun _ => none)
        (fun _ => false) (fun _ => true) 2).base_clients.length * 10 := by
  refine ⟨by decide, ?_⟩
  exact (C7_publish_flood_cycle_counts (fun _ => true) (fun _ _ _ _ => 0) (fun _ => none)
    (fun _ => false) (fun _ => true) 2 [] (fun _ _ _ => 0)).2.2.2.1 0 (by decide) rfl

theorem clearedOnce_of_shape (l : List Bool)
    (h : ∃ a b, l = List.replicate a true ++ List.replicate b false) :
    clearedOnce (true :: l ++ [false]) := by
  obtain ⟨a, b, rfl⟩ := h
  refine ⟨a + 1, b + 1, by omega, by omega, ?_⟩
  rw [List.replicate_succ, List.replicate_succ' b]
  simp [List.append_assoc]

/-- Claim C3 (confirmed): for each actor kind — device, credential
guessing, and both volumetric-flood modes — the run-flag over the actor
lifetime is a monotone true-then-false trace with exactly one
true-to-false transition, and the actor executes loop bodies only at
checks where the flag was still true, so no actor resumes operations
after its flag is cleared.  The leading true is the flag at lifecycle
start (device constructor line 60; attack start methods lines 189 and
313); the trailing false is the flag after the actor's own finally/stop
(device line 140, brute force line 211) or, for the DDoS actor whose
loops exit without clearing the flag themselves, after DDoSAttack.stop
is invoked during the coordinated shutdown (lines 497-498 and 330);
in between are the flag values observed at every while-condition
check. -/
theorem C3_run_flag_single_transition (stopD excD : Nat → Bool) (fuelD : Nat)
    (connectOk : Bool) (rate duration : ℚ) (stopB excB : Nat → Bool) (fuelB : Nat)
    (rateC durC : Nat) (okC : Nat → Nat → Bool) (stopC : Nat → Bool)
    (okP : Nat → Bool) (gP : Nat → Nat → Nat → Nat → Nat) (excP : Nat → Option Nat)
    (stopP : Nat → Bool) (cleanP : Nat → Bool) (durP : Nat) :
    (clearedOnce (true :: (IoTDevice.start connectOk stopD excD fuelD).checks ++ [false]) ∧
      (IoTDevice.start connectOk stopD excD fuelD).iters ≤
        (IoTDevice.start connectOk stopD excD fuelD).checks.count true ∧
      (IoTDevice.start connectOk stopD excD fuelD).running_final = false) ∧
    (clearedOnce (true :: (BruteForceAttack.start rate duration stopB excB fuelB).checks ++ [false]) ∧
      (BruteForceAttack.start rate duration stopB excB fuelB).iters ≤
        (BruteForceAttack.start rate duration stopB excB fuelB).checks.count true ∧
      (BruteForceAttack.start rate duration stopB excB fuelB).running_final = false) ∧
    (clearedOnce (true :: (DDoSAttack.flood_connections rateC durC okC stopC).checks ++ [false]) ∧
      (DDoSAttack.flood_connections rateC durC okC stopC).iters ≤
        (DDoSAttack.flood_connections rateC durC okC stopC).checks.count true) ∧
    (clearedOnce (true :: (DDoSAttack.flood_publish okP gP excP stopP cleanP durP).checks ++ [false]) ∧
      (DDoSAttack.flood_publish okP gP excP stopP cleanP durP).iters ≤
        (DDoSAttack.flood_publish okP gP excP stopP cleanP durP).checks.count true) := by
  refine ⟨⟨?_, ?_, ?_⟩, ⟨?_, ?_, ?_⟩, ⟨?_, ?_⟩, ⟨?_, ?_⟩⟩
  · apply clearedOnce_of_shape
    unfold IoTDevice.start
    by_cases hco : connectOk = true
    · rw [if_pos hco]
      exact deviceLoop_checks_shape stopD excD fuelD 0 true
    · rw [if_neg hco]
      exact ⟨0, 0, rfl⟩
  · unfold IoTDevice.start
    by_cases hco : connectOk = true
    · rw [if_pos hco]
      exact deviceLoop_iters_le stopD excD fuelD 0 true
    · rw [if_neg hco]
      exact Nat.le_refl 0
  · unfold IoTDevice.start
    by_cases hco : connectOk = true
    · rw [if_pos hco]
      exact deviceLoop_final stopD excD fuelD 0 true
    · rw [if_neg hco]
  · exact clearedOnce_of_shape _
      (bruteLoop_checks_shape duration rate stopB excB fuelB 0 0 true)
  · exact bruteLoop_iters_le duration rate stopB excB fuelB 0 0 true
  · exact (bruteLoop_reports duration rate stopB excB fuelB 0 0 true).2
  · exact clearedOnce_of_shape _
      (floodConnLoop_checks_shape rateC okC stopC durC 0 true)
  · exact floodConnLoop_iters_le rateC okC stopC durC 0 true
  · apply clearedOnce_of_shape
    simp only [DDoSAttack.flood_publish]
    by_cases hb : ((List.range 5).filter okP).isEmpty
    · rw [if_pos hb]
      exact ⟨0, 0, rfl⟩
    · rw [if_neg hb]
      exact floodPubLoop_checks_shape ((List.range 5).filter okP) gP excP stopP durP 0 true
  · simp only [DDoSAttack.flood_publish]
    by_cases hb : ((List.range 5).filter okP).isEmpty
    · rw [if_pos hb]
      exact Nat.le_refl 0
    · rw [if_neg hb]
      exact floodPubLoop_iters_le ((List.range 5).filter okP) gP excP stopP durP 0 true
